import Mathlib

/-!
Verification of the conditional DNS forwarding proxy (src/conditional-dns.py).

The development shallowly embeds the classification-and-synthesis engine
(`dns_response`), the TCP length-prefixed framing (`TCPRequestHandler.get_data`
/ `send_data`) and the per-request error handling (`BaseRequestHandler.handle`)
as executable Lean functions, and proves the specified properties about them.

Conventions:
- Python strings become `String`; byte buffers become `List Nat` (one entry
  per byte); machine integers are `Nat`.
- The two upstream resolver clients (`opendnsRes`, `unlocatorRes`) are external
  collaborators; they are passed in as functions `String → Option String`
  (answer address, or `none` for a resolver failure, which in the Python code
  is an exception that unwinds out of `dns_response`).
- `dns_response` additionally returns the list of `logger.info` lines it emits
  and the trace of resolver calls it performs, so that logging and
  "no network I/O" properties are statable.
-/

namespace ConditionalDns

/-! ## Substring matching

Python's `x in qn` on strings is substring containment.  `leadsWith n h`
checks that `n` starts `h`; `charsContains h n` checks that `n` occurs
somewhere inside `h`. -/

def leadsWith : List Char → List Char → Bool
  | [], _ => true
  | _ :: _, [] => false
  | a :: as, b :: bs => a == b && leadsWith as bs

def charsContains : List Char → List Char → Bool
  | [], n => leadsWith n []
  | a :: t, n => leadsWith n (a :: t) || charsContains t n

/-- Python `needle in hay` for strings: substring containment. -/
def strContains (hay needle : String) : Bool :=
  charsContains hay.toList needle.toList

/-! ## IPv4 addresses and the block-signature network

Embeds the `netaddr` check `IPAddress(odnsAns) in IPNetwork("146.112.61.104/29")`
from the adaptive branch of `dns_response`.  Addresses are 32-bit values
represented as `Nat`; `parseIPv4` parses a dotted-quad string. -/

def decToNat (cs : List Char) : Option Nat :=
  if cs.isEmpty then none
  else cs.foldlM (fun acc ch => if ch.isDigit then some (acc * 10 + (ch.toNat - 48)) else none) 0

def splitOnDot : List Char → List (List Char)
  | [] => [[]]
  | c :: cs =>
    let r := splitOnDot cs
    if c = '.' then [] :: r
    else
      match r with
      | [] => [[c]]
      | g :: gs => (c :: g) :: gs

def parseIPv4 (s : String) : Option Nat :=
  match (splitOnDot s.toList).mapM decToNat with
  | some [a, b, c, d] =>
    if a ≤ 255 && b ≤ 255 && c ≤ 255 && d ≤ 255 then
      some (((a * 256 + b) * 256 + c) * 256 + d)
    else none
  | _ => none

/-- Numeric value of 146.112.61.104, the base of the block-signature network. -/
def blockNetBase : Nat := 2456829288

/-- Membership in `IPNetwork("146.112.61.104/29")`: the /29 mask fixes all but
the low 3 bits of the address. -/
def inBlockNet (ip : Nat) : Bool := ip / 8 == blockNetBase / 8

/-! ## DNS data model (the slice of dnslib the program uses) -/

inductive QType
  | A
  | PTR
deriving DecidableEq, Repr

inductive Rdata
  | A (addr : String)
  | PTR (name : String)
deriving DecidableEq, Repr

structure RR where
  rname : String
  rtype : QType
  rdata : Rdata
  ttl : Nat
deriving DecidableEq, Repr

/-- The header fields `dns_response` sets on the reply skeleton:
`DNSHeader(id=request.header.id, qr=1, aa=1, ra=1)`. -/
structure Header where
  hid : Nat
  qr : Nat
  aa : Nat
  ra : Nat
deriving DecidableEq, Repr

structure Question where
  qname : String
  qtype : QType
deriving DecidableEq, Repr

structure Request where
  header_id : Nat
  q : Question
deriving DecidableEq, Repr

structure Reply where
  header : Header
  q : Question
  answers : List RR
deriving DecidableEq, Repr

/-- The process-global configuration loaded at startup: the server's own
reverse-DNS names (`myreversedns`), the sniproxy redirect target and domain
list, and the two forced-resolver lists. -/
structure Env where
  myreversedns : List String
  sniproxyServer : String
  sniproxyDomains : List String
  alwaysUnlocator : List String
  alwaysOpendns : List String

/-- The two upstream resolvers: `opendnsRes` (the primary, block-detecting
resolver) and `unlocatorRes` (the secondary, geo-alternate resolver). -/
inductive Upstream
  | opendns
  | unlocator
deriving DecidableEq, Repr

/-! ## Classification

`dns_response` decides the route with an if/elif chain; `classify` is that
chain.  The constructor names follow the routing-decision vocabulary of the
design description (Local = reverse-DNS PTR branch, Management = opendns.com
branch, Redirect = sniproxy branch, ForcedSecondary = alwaysUnlocator branch,
ForcedPrimary = alwaysOpendns branch, Adaptive = the final else branch). -/

inductive RoutingDecision
  | Local
  | Management
  | Redirect
  | ForcedSecondary
  | ForcedPrimary
  | Adaptive
deriving DecidableEq, Repr

/-- The guard order of `dns_response`'s if/elif chain:
`qn in myreversedns`, then `'opendns.com' in qn`, then the three
`any([x in qn for x in ...])` checks, else the adaptive fallback. -/
def classify (env : Env) (qn : String) : RoutingDecision :=
  if qn ∈ env.myreversedns then .Local
  else if strContains qn "opendns.com" then .Management
  else if env.sniproxyDomains.any (fun x => strContains qn x) then .Redirect
  else if env.alwaysUnlocator.any (fun x => strContains qn x) then .ForcedSecondary
  else if env.alwaysOpendns.any (fun x => strContains qn x) then .ForcedPrimary
  else .Adaptive

/-- The guard of each branch of the chain, taken on its own. -/
def guardOf (env : Env) (qn : String) : RoutingDecision → Bool
  | .Local => decide (qn ∈ env.myreversedns)
  | .Management => strContains qn "opendns.com"
  | .Redirect => env.sniproxyDomains.any (fun x => strContains qn x)
  | .ForcedSecondary => env.alwaysUnlocator.any (fun x => strContains qn x)
  | .ForcedPrimary => env.alwaysOpendns.any (fun x => strContains qn x)
  | .Adaptive => true

/-- The branches tried before a given branch, in the chain's textual order. -/
def strictlyEarlier : RoutingDecision → List RoutingDecision
  | .Local => []
  | .Management => [.Local]
  | .Redirect => [.Local, .Management]
  | .ForcedSecondary => [.Local, .Management, .Redirect]
  | .ForcedPrimary => [.Local, .Management, .Redirect, .ForcedSecondary]
  | .Adaptive => [.Local, .Management, .Redirect, .ForcedSecondary, .ForcedPrimary]

/-! ## Response synthesis -/

/-- An A answer record as every non-PTR branch builds it:
`RR(qn, QTYPE.A, rdata=A(addr), ttl=5*60)`. -/
def arec (qn addr : String) : RR :=
  { rname := qn, rtype := .A, rdata := .A addr, ttl := 5 * 60 }

/-- Embeds `dns_response(data)` after the external dnslib parse: the reply
skeleton copies the request id, sets qr=1, aa=1, ra=1 and echoes the question;
then the if/elif chain adds exactly one answer.  Returns `none` when a resolver
call fails (a dnspython exception unwinding out of the function, including the
`IPAddress` parse of the primary answer in the adaptive branch) and otherwise
the reply, the `logger.info` lines emitted, and the resolver calls performed,
in order. -/
def dns_response (env : Env) (odns unloc : String → Option String) (request : Request) :
    Option (Reply × List String × List (Upstream × String)) :=
  let qn := request.q.qname
  let reply0 : Reply := { header := { hid := request.header_id, qr := 1, aa := 1, ra := 1 },
                          q := request.q, answers := [] }
  match classify env qn with
  | .Local =>
    some ({ reply0 with answers := [{ rname := qn, rtype := .PTR, rdata := .PTR "localdns", ttl := 5 * 60 }] },
      [], [])
  | .Management =>
    match odns qn with
    | none => none
    | some a =>
      some ({ reply0 with answers := [arec qn a] },
        ["MGMT " ++ qn ++ " (" ++ a ++ ")"], [(.opendns, qn)])
  | .Redirect =>
    some ({ reply0 with answers := [arec qn env.sniproxyServer] },
      ["SNIPROXY " ++ qn ++ " (" ++ env.sniproxyServer ++ ")"], [])
  | .ForcedSecondary =>
    match unloc qn with
    | none => none
    | some a =>
      some ({ reply0 with answers := [arec qn a] },
        ["ALWAYS_UNLOCATOR " ++ qn ++ " (" ++ a ++ ")"], [(.unlocator, qn)])
  | .ForcedPrimary =>
    match odns qn with
    | none => none
    | some a =>
      some ({ reply0 with answers := [arec qn a] },
        ["ALWAYS_OPENDNS " ++ qn ++ " (" ++ a ++ ")"], [(.opendns, qn)])
  | .Adaptive =>
    match odns qn with
    | none => none
    | some oa =>
      match unloc qn with
      | none => none
      | some ua =>
        match parseIPv4 oa with
        | none => none
        | some ip =>
          if inBlockNet ip then
            some ({ reply0 with answers := [arec qn oa] },
              ["BLOCKED " ++ qn ++ " (" ++ oa ++ ")"],
              [(.opendns, qn), (.unlocator, qn)])
          else
            some ({ reply0 with answers := [arec qn ua] },
              ["UNLOCATOR " ++ qn ++ " (" ++ ua ++ ")"],
              [(.opendns, qn), (.unlocator, qn)])

/-! ## TCP framing -/

/-- Embeds `TCPRequestHandler.get_data` on the received buffer: the first two
bytes are a big-endian 16-bit payload length `sz`; the handler raises
"Wrong size of TCP packet" when `sz < len(data) - 2` and "Too big TCP packet"
when `sz > len(data) - 2`, else returns `data[2:]`.  A buffer shorter than two
bytes makes `struct.unpack` itself raise. -/
def get_data : List Nat → Except String (List Nat)
  | b0 :: b1 :: rest =>
    let sz := b0 * 256 + b1
    if sz < rest.length then .error "Wrong size of TCP packet"
    else if rest.length < sz then .error "Too big TCP packet"
    else .ok rest
  | _ => .error "struct.error: unpack requires a buffer of 2 bytes"

/-- Embeds the framing of `TCPRequestHandler.send_data`:
`struct.pack(">H", len(data)) + data`.  `struct.pack` raises when the length
does not fit in 16 bits, hence the `Option`. -/
def send_data_frame (payload : List Nat) : Option (List Nat) :=
  if payload.length < 65536 then
    some (payload.length / 256 :: payload.length % 256 :: payload)
  else none

/-! ## Per-request error handling -/

inductive HandleOutcome
  /-- `send_data(dns_response(data))` ran: response bytes written back. -/
  | sent (resp : List Nat)
  /-- the except block ran to completion: one `logger.error` line written,
  no response bytes sent. -/
  | errorLogged (line : String)
  /-- the except block itself raised before logging anything:
  `data` was never assigned because `get_data` raised, so evaluating
  `logger.error(... % (..., data))` raises `UnboundLocalError`, which escapes
  `handle` (socketserver prints a traceback; nothing reaches the log file). -/
  | crashed
deriving DecidableEq, Repr

/-- The error line of `BaseRequestHandler.handle`:
`"%s request %s (%s %s): %s" % (classname[:3], now, client_address[0], client_address[1], data)`. -/
def errLine (cls now host : String) (port : Nat) (data : List Nat) : String :=
  cls ++ " request " ++ now ++ " (" ++ host ++ " " ++ toString port ++ "): " ++ toString data

/-- Embeds `BaseRequestHandler.handle`: run `get_data`, feed the payload to
`dns_response` and send the result; on any failure fall into the except block.
The local variable `data` is only assigned by a successful `get_data`, so when
`get_data` itself failed the except block crashes (see `HandleOutcome.crashed`)
instead of logging. -/
def handle (cls now host : String) (port : Nat)
    (getData : Except String (List Nat))
    (respond : List Nat → Option (List Nat)) : HandleOutcome :=
  match getData with
  | .error _ => .crashed
  | .ok data =>
    match respond data with
    | some resp => .sent resp
    | none => .errorLogged (errLine cls now host port data)

/-! ## Concrete instances used by witnesses and counterexamples -/

/-- A configuration whose identity set holds one reverse name and whose rule
lists are empty. -/
def envL : Env := ⟨["1.0.0.127.in-addr.arpa."], "10.0.0.5", [], [], []⟩

def reqL : Request := ⟨3, ⟨"1.0.0.127.in-addr.arpa.", .PTR⟩⟩

/-- A resolver stub that always fails. -/
def noRes : String → Option String := fun _ => none

def replyL : Reply :=
  ⟨⟨3, 1, 1, 1⟩, ⟨"1.0.0.127.in-addr.arpa.", .PTR⟩,
    [⟨"1.0.0.127.in-addr.arpa.", .PTR, .PTR "localdns", 300⟩]⟩

/-- An empty configuration: every name not containing "opendns.com" is
adaptive; "opendns.com" names are management. -/
def envM : Env := ⟨[], "10.0.0.5", [], [], []⟩

def reqM : Request := ⟨9, ⟨"www.opendns.com.", .A⟩⟩

def odnsM : String → Option String := fun _ => some "1.2.3.4"

def replyM : Reply := ⟨⟨9, 1, 1, 1⟩, ⟨"www.opendns.com.", .A⟩, [arec "www.opendns.com." "1.2.3.4"]⟩

/-! ## Helper lemmas -/

theorem leadsWith_iff (n h : List Char) :
    leadsWith n h = true ↔ ∃ s, h = n ++ s := by
  induction n generalizing h with
  | nil => simp [leadsWith]
  | cons a as ih =>
    cases h with
    | nil => simp [leadsWith]
    | cons b bs =>
      simp only [leadsWith, Bool.and_eq_true, beq_iff_eq, ih, List.cons_append,
        List.cons.injEq]
      constructor
      · rintro ⟨rfl, s, rfl⟩; exact ⟨s, rfl, rfl⟩
      · rintro ⟨s, rfl, rfl⟩; exact ⟨rfl, s, rfl⟩

theorem charsContains_iff (h n : List Char) :
    charsContains h n = true ↔ ∃ p s, h = p ++ (n ++ s) := by
  induction h with
  | nil =>
    simp only [charsContains, leadsWith_iff]
    constructor
    · rintro ⟨s, hs⟩; exact ⟨[], s, hs⟩
    · rintro ⟨p, s, hp⟩
      rcases List.append_eq_nil.mp hp.symm with ⟨rfl, h2⟩
      exact ⟨s, h2.symm⟩
  | cons a t ih =>
    simp only [charsContains, Bool.or_eq_true, leadsWith_iff, ih]
    constructor
    · rintro (⟨s, hs⟩ | ⟨p, s, hs⟩)
      · exact ⟨[], s, hs⟩
      · exact ⟨a :: p, s, by simp [hs]⟩
    · rintro ⟨p, s, hp⟩
      cases p with
      | nil => exact Or.inl ⟨s, by simpa using hp⟩
      | cons x p =>
        rw [List.cons_append] at hp
        injection hp with h1 h2
        exact Or.inr ⟨p, s, h2⟩

/-- The log label each classification's branch of `dns_response` can pass to
`logger.info`: the Local branch logs nothing, each middle branch logs its one
fixed token, and the adaptive branch logs BLOCKED or UNLOCATOR depending on
the block-signature check. -/
def labelTokens : RoutingDecision → List String
  | .Local => []
  | .Management => ["MGMT"]
  | .Redirect => ["SNIPROXY"]
  | .ForcedSecondary => ["ALWAYS_UNLOCATOR"]
  | .ForcedPrimary => ["ALWAYS_OPENDNS"]
  | .Adaptive => ["BLOCKED", "UNLOCATOR"]

/-- The full shape of every successful `dns_response` run: the reply echoes
the request id and question with qr=aa=ra=1, and either the Local branch was
taken (one PTR answer, no log line) or some other branch was (one A answer
whose address also appears in the single log line, whose label token is the
taken branch's own). -/
theorem dns_response_ok (env : Env) (odns unloc : String → Option String) (req : Request)
    (reply : Reply) (logs : List String) (calls : List (Upstream × String))
    (h : dns_response env odns unloc req = some (reply, logs, calls)) :
    reply.header = ⟨req.header_id, 1, 1, 1⟩ ∧ reply.q = req.q ∧
      ((classify env req.q.qname = RoutingDecision.Local ∧ logs = [] ∧
          reply.answers = [⟨req.q.qname, .PTR, .PTR "localdns", 300⟩]) ∨
        (classify env req.q.qname ≠ RoutingDecision.Local ∧
          ∃ tok ∈ labelTokens (classify env req.q.qname), ∃ addr,
            logs = [tok ++ " " ++ req.q.qname ++ " (" ++ addr ++ ")"] ∧
            reply.answers = [arec req.q.qname addr])) := by
  simp only [dns_response] at h
  split at h
  · case _ heq =>
    obtain ⟨h1, h2, h3⟩ := by simpa using h
    subst h1 h2 h3
    exact ⟨rfl, rfl, Or.inl ⟨heq, rfl, rfl⟩⟩
  · case _ heq =>
    cases ho : odns req.q.qname with
    | none => simp [ho] at h
    | some a =>
      simp only [ho] at h
      obtain ⟨h1, h2, h3⟩ := by simpa using h
      subst h1 h2 h3
      exact ⟨rfl, rfl, Or.inr ⟨by simp [heq], "MGMT", by simp [heq, labelTokens], a, rfl, rfl⟩⟩
  · case _ heq =>
    obtain ⟨h1, h2, h3⟩ := by simpa using h
    subst h1 h2 h3
    exact ⟨rfl, rfl, Or.inr ⟨by simp [heq], "SNIPROXY", by simp [heq, labelTokens], env.sniproxyServer, rfl, rfl⟩⟩
  · case _ heq =>
    cases hu : unloc req.q.qname with
    | none => simp [hu] at h
    | some a =>
      simp only [hu] at h
      obtain ⟨h1, h2, h3⟩ := by simpa using h
      subst h1 h2 h3
      exact ⟨rfl, rfl, Or.inr ⟨by simp [heq], "ALWAYS_UNLOCATOR", by simp [heq, labelTokens], a, rfl, rfl⟩⟩
  · case _ heq =>
    cases ho : odns req.q.qname with
    | none => simp [ho] at h
    | some a =>
      simp only [ho] at h
      obtain ⟨h1, h2, h3⟩ := by simpa using h
      subst h1 h2 h3
      exact ⟨rfl, rfl, Or.inr ⟨by simp [heq], "ALWAYS_OPENDNS", by simp [heq, labelTokens], a, rfl, rfl⟩⟩
  · case _ heq =>
    cases ho : odns req.q.qname with
    | none => simp [ho] at h
    | some oa =>
      cases hu : unloc req.q.qname with
      | none => simp [ho, hu] at h
      | some ua =>
        cases hip : parseIPv4 oa with
        | none => simp [ho, hu, hip] at h
        | some ip =>
          simp only [ho, hu, hip] at h
          by_cases hb : inBlockNet ip = true
          · rw [if_pos hb] at h
            obtain ⟨h1, h2, h3⟩ := by simpa using h
            subst h1 h2 h3
            exact ⟨rfl, rfl, Or.inr ⟨by simp [heq], "BLOCKED", by simp [heq, labelTokens], oa, rfl, rfl⟩⟩
          · rw [if_neg hb] at h
            obtain ⟨h1, h2, h3⟩ := by simpa using h
            subst h1 h2 h3
            exact ⟨rfl, rfl, Or.inr ⟨by simp [heq], "UNLOCATOR", by simp [heq, labelTokens], ua, rfl, rfl⟩⟩

/-! ## Claim theorems -/

/-- C1: Classification follows the fixed first-match-wins priority order:
`classify` returns a decision exactly when that branch's guard holds and no
earlier guard (IdentitySet membership, management marker, redirect group,
forced-secondary list, forced-primary list, in that order) holds; in
particular a name matching both the redirect list and the forced-primary list
(and no earlier rule) is classified Redirect. -/
theorem classify_priority_first_match (env : Env) (qn : String) (d : RoutingDecision) :
    (classify env qn = d ↔
      (guardOf env qn d = true ∧ ∀ e ∈ strictlyEarlier d, guardOf env qn e = false)) ∧
    (¬ qn ∈ env.myreversedns → strContains qn "opendns.com" = false →
      env.sniproxyDomains.any (fun x => strContains qn x) = true →
      env.alwaysOpendns.any (fun x => strContains qn x) = true →
      classify env qn = RoutingDecision.Redirect) := by
  constructor
  · cases d <;>
      simp only [classify, guardOf, strictlyEarlier, List.mem_cons, List.not_mem_nil,
        forall_eq, forall_eq_or_imp, false_implies, implies_true, and_true, true_and] <;>
      split_ifs <;> simp_all
  · intro h1 h2 h3 _
    simp [classify, h1, h2, h3]

/-- A configuration in which "both.example" occurs in both the redirect
(sniproxy) list and the forced-primary (alwaysOpendns) list. -/
def envRP : Env := ⟨[], "10.0.0.5", ["both.example"], [], ["both.example"]⟩

theorem classify_priority_first_match_witness :
    (classify envRP "both.example." = RoutingDecision.Redirect ↔
      (guardOf envRP "both.example." RoutingDecision.Redirect = true ∧
        ∀ e ∈ strictlyEarlier RoutingDecision.Redirect,
          guardOf envRP "both.example." e = false)) ∧
    (¬ "both.example." ∈ envRP.myreversedns →
      strContains "both.example." "opendns.com" = false →
      envRP.sniproxyDomains.any (fun x => strContains "both.example." x) = true →
      envRP.alwaysOpendns.any (fun x => strContains "both.example." x) = true →
      classify envRP "both.example." = RoutingDecision.Redirect) :=
  classify_priority_first_match envRP "both.example." RoutingDecision.Redirect

/-- C2: On the Adaptive branch both resolvers are queried (primary first,
then secondary); when the primary answer parses to an address inside
146.112.61.104/29 the single A answer is the primary answer with log label
BLOCKED, otherwise it is the secondary answer with log label UNLOCATOR (the
label the design description calls ALT_RESOLVER). -/
theorem adaptive_block_detection (env : Env) (odns unloc : String → Option String)
    (req : Request) (oa ua : String) (ip : Nat)
    (hd : classify env req.q.qname = RoutingDecision.Adaptive)
    (ho : odns req.q.qname = some oa)
    (hu : unloc req.q.qname = some ua)
    (hip : parseIPv4 oa = some ip) :
    ∃ reply logs,
      dns_response env odns unloc req =
        some (reply, logs, [(Upstream.opendns, req.q.qname), (Upstream.unlocator, req.q.qname)]) ∧
      (inBlockNet ip = true →
        reply.answers = [arec req.q.qname oa] ∧
        logs = ["BLOCKED " ++ req.q.qname ++ " (" ++ oa ++ ")"]) ∧
      (inBlockNet ip = false →
        reply.answers = [arec req.q.qname ua] ∧
        logs = ["UNLOCATOR " ++ req.q.qname ++ " (" ++ ua ++ ")"]) := by
  by_cases hb : inBlockNet ip = true
  · refine ⟨{ header := ⟨req.header_id, 1, 1, 1⟩, q := req.q, answers := [arec req.q.qname oa] },
      ["BLOCKED " ++ req.q.qname ++ " (" ++ oa ++ ")"], ?_, ?_, ?_⟩
    · simp [dns_response, hd, ho, hu, hip, hb]
    · exact fun _ => ⟨rfl, rfl⟩
    · intro hf; rw [hf] at hb; cases hb
  · have hb2 : inBlockNet ip = false := by revert hb; cases inBlockNet ip <;> simp
    refine ⟨{ header := ⟨req.header_id, 1, 1, 1⟩, q := req.q, answers := [arec req.q.qname ua] },
      ["UNLOCATOR " ++ req.q.qname ++ " (" ++ ua ++ ")"], ?_, ?_, ?_⟩
    · simp [dns_response, hd, ho, hu, hip, hb2]
    · intro ht; rw [ht] at hb2; cases hb2
    · exact fun _ => ⟨rfl, rfl⟩

theorem adaptive_block_detection_witness :
    ∃ reply logs,
      dns_response envM (fun _ => some "146.112.61.105") (fun _ => some "9.9.9.9")
          ⟨7, ⟨"blocked.example.", QType.A⟩⟩ =
        some (reply, logs,
          [(Upstream.opendns, "blocked.example."), (Upstream.unlocator, "blocked.example.")]) ∧
      (inBlockNet 2456829289 = true →
        reply.answers = [arec "blocked.example." "146.112.61.105"] ∧
        logs = ["BLOCKED " ++ "blocked.example." ++ " (" ++ "146.112.61.105" ++ ")"]) ∧
      (inBlockNet 2456829289 = false →
        reply.answers = [arec "blocked.example." "9.9.9.9"] ∧
        logs = ["UNLOCATOR " ++ "blocked.example." ++ " (" ++ "9.9.9.9" ++ ")"]) :=
  adaptive_block_detection envM (fun _ => some "146.112.61.105") (fun _ => some "9.9.9.9")
    ⟨7, ⟨"blocked.example.", QType.A⟩⟩ "146.112.61.105" "9.9.9.9" 2456829289
    (by decide) rfl rfl (by decide)

/-- C3 counterexample: on a buffer whose remaining bytes are FEWER than the
declared length (prefix says 5, one byte follows), `get_data` raises
"Too big TCP packet", not the "Wrong size" error the description assigns to
this case. -/
theorem get_data_error_labels_swapped :
    get_data [0, 5, 1] = Except.error "Too big TCP packet" ∧
    "Too big TCP packet" ≠ "Wrong size of TCP packet" :=
  ⟨rfl, by decide⟩

/-- C3 (amended): `get_data` succeeds, returning exactly the bytes after the
2-byte big-endian prefix, iff the remaining byte count equals the declared
length; fewer remaining bytes than declared raise "Too big TCP packet", and
more remaining bytes than declared raise "Wrong size of TCP packet". -/
theorem get_data_framing_check (b0 b1 : Nat) (rest : List Nat) :
    (get_data (b0 :: b1 :: rest) = Except.ok rest ↔ b0 * 256 + b1 = rest.length) ∧
    (rest.length < b0 * 256 + b1 →
      get_data (b0 :: b1 :: rest) = Except.error "Too big TCP packet") ∧
    (b0 * 256 + b1 < rest.length →
      get_data (b0 :: b1 :: rest) = Except.error "Wrong size of TCP packet") := by
  refine ⟨⟨?_, ?_⟩, ?_, ?_⟩
  · intro h
    by_cases h1 : b0 * 256 + b1 < rest.length
    · simp [get_data, h1] at h
    · by_cases h2 : rest.length < b0 * 256 + b1
      · simp [get_data, h1, h2] at h
      · omega
  · intro h
    simp [get_data, h]
  · intro h
    have h1 : ¬ (b0 * 256 + b1 < rest.length) := by omega
    simp [get_data, h1, h]
  · intro h
    simp [get_data, h]

theorem get_data_framing_check_witness :
    (get_data [0, 2, 7, 8] = Except.ok [7, 8] ↔ 0 * 256 + 2 = ([7, 8] : List Nat).length) ∧
    (([7, 8] : List Nat).length < 0 * 256 + 2 →
      get_data [0, 2, 7, 8] = Except.error "Too big TCP packet") ∧
    (0 * 256 + 2 < ([7, 8] : List Nat).length →
      get_data [0, 2, 7, 8] = Except.error "Wrong size of TCP packet") :=
  get_data_framing_check 0 2 [7, 8]

/-- C4: framing a payload that fits the 16-bit length prefix with send_data's
framing and unframing it with get_data's check recovers the payload. -/
theorem tcp_frame_roundtrip (payload : List Nat) (h : payload.length < 65536) :
    ∃ framed, send_data_frame payload = some framed ∧ get_data framed = Except.ok payload := by
  refine ⟨payload.length / 256 :: payload.length % 256 :: payload, ?_, ?_⟩
  · simp [send_data_frame, h]
  · have h1 : ¬ (payload.length / 256 * 256 + payload.length % 256 < payload.length) := by omega
    have h2 : ¬ (payload.length < payload.length / 256 * 256 + payload.length % 256) := by omega
    simp [get_data, h1, h2]

theorem tcp_frame_roundtrip_witness :
    ([1, 2, 3] : List Nat).length < 65536 ∧
    ∃ framed, send_data_frame [1, 2, 3] = some framed ∧
      get_data framed = Except.ok [1, 2, 3] :=
  ⟨by decide, tcp_frame_roundtrip [1, 2, 3] (by decide)⟩

/-- C5: a rule entry of the redirect, forced-secondary or forced-primary group
matches a query name exactly when the entry occurs anywhere inside the name
(unanchored substring containment), while the IdentitySet guard is plain exact
membership. -/
theorem rule_match_substring_identity_exact (env : Env) (qn : String) :
    (guardOf env qn RoutingDecision.Redirect = true ↔
      ∃ x ∈ env.sniproxyDomains, ∃ p s, qn.toList = p ++ (x.toList ++ s)) ∧
    (guardOf env qn RoutingDecision.ForcedSecondary = true ↔
      ∃ x ∈ env.alwaysUnlocator, ∃ p s, qn.toList = p ++ (x.toList ++ s)) ∧
    (guardOf env qn RoutingDecision.ForcedPrimary = true ↔
      ∃ x ∈ env.alwaysOpendns, ∃ p s, qn.toList = p ++ (x.toList ++ s)) ∧
    (guardOf env qn RoutingDecision.Local = true ↔ qn ∈ env.myreversedns) := by
  refine ⟨?_, ?_, ?_, ?_⟩ <;>
    simp [guardOf, strContains, charsContains_iff, List.any_eq_true]

/-- C6: a name in the IdentitySet yields exactly one PTR answer carrying the
fixed local hostname token "localdns", no log line, and no resolver call at
all, whatever the resolver stubs do. -/
theorem local_ptr_no_resolver_io (env : Env) (odns unloc : String → Option String)
    (req : Request) (h : req.q.qname ∈ env.myreversedns) :
    dns_response env odns unloc req =
      some ({ header := ⟨req.header_id, 1, 1, 1⟩, q := req.q,
              answers := [{ rname := req.q.qname, rtype := QType.PTR,
                            rdata := Rdata.PTR "localdns", ttl := 300 }] }, [], []) := by
  have hc : classify env req.q.qname = RoutingDecision.Local := by simp [classify, h]
  simp [dns_response, hc]

theorem local_ptr_no_resolver_io_witness :
    "1.0.0.127.in-addr.arpa." ∈ envL.myreversedns ∧
    dns_response envL noRes noRes reqL =
      some ({ header := ⟨3, 1, 1, 1⟩, q := ⟨"1.0.0.127.in-addr.arpa.", QType.PTR⟩,
              answers := [{ rname := "1.0.0.127.in-addr.arpa.", rtype := QType.PTR,
                            rdata := Rdata.PTR "localdns", ttl := 300 }] }, [], []) :=
  ⟨by decide, local_ptr_no_resolver_io envL noRes noRes reqL (by decide)⟩

/-- C7: every successful reply carries exactly one answer record, and its TTL
is 300 seconds, on every branch. -/
theorem every_answer_ttl300_single (env : Env) (odns unloc : String → Option String)
    (req : Request) (reply : Reply) (logs : List String) (calls : List (Upstream × String))
    (h : dns_response env odns unloc req = some (reply, logs, calls)) :
    reply.answers.length = 1 ∧ ∀ r ∈ reply.answers, r.ttl = 300 := by
  obtain ⟨-, -, hcase⟩ := dns_response_ok env odns unloc req reply logs calls h
  rcases hcase with ⟨-, -, hans⟩ | ⟨-, tok, -, addr, -, hans⟩ <;> simp [hans, arec]

theorem every_answer_ttl300_single_witness :
    replyL.answers.length = 1 ∧ ∀ r ∈ replyL.answers, r.ttl = 300 :=
  every_answer_ttl300_single envL noRes noRes reqL replyL [] [] (by decide)

/-- C8 counterexample: a request resolved on the Local branch succeeds but
emits no log line at all, so it is not the case that every successfully
resolved request produces exactly one log line. -/
theorem local_branch_produces_no_log :
    dns_response envL noRes noRes reqL = some (replyL, [], []) ∧
    ([] : List String).length ≠ 1 :=
  ⟨by decide, by decide⟩

/-- C8 (amended): every successful non-Local request emits exactly one log
line holding the classification label of the branch taken (a token of
`labelTokens` of the decision), the query name and the answer address (the
address in the reply's single A record); the Local branch emits no log line. -/
theorem nonlocal_one_log_line (env : Env) (odns unloc : String → Option String)
    (req : Request) (reply : Reply) (logs : List String) (calls : List (Upstream × String))
    (h : dns_response env odns unloc req = some (reply, logs, calls)) :
    (classify env req.q.qname = RoutingDecision.Local → logs = []) ∧
    (classify env req.q.qname ≠ RoutingDecision.Local →
      ∃ tok ∈ labelTokens (classify env req.q.qname), ∃ addr,
        logs = [tok ++ " " ++ req.q.qname ++ " (" ++ addr ++ ")"] ∧
        reply.answers = [arec req.q.qname addr]) := by
  obtain ⟨-, -, hcase⟩ := dns_response_ok env odns unloc req reply logs calls h
  rcases hcase with ⟨hl, hlogs, -⟩ | ⟨hnl, tok, hmem, addr, hlogs, hans⟩
  · exact ⟨fun _ => hlogs, fun hn => absurd hl hn⟩
  · exact ⟨fun hl => absurd hl hnl, fun _ => ⟨tok, hmem, addr, hlogs, hans⟩⟩

theorem nonlocal_one_log_line_witness :
    (classify envM "www.opendns.com." = RoutingDecision.Local →
      (["MGMT www.opendns.com. (1.2.3.4)"] : List String) = []) ∧
    (classify envM "www.opendns.com." ≠ RoutingDecision.Local →
      ∃ tok ∈ labelTokens (classify envM "www.opendns.com."), ∃ addr,
        (["MGMT www.opendns.com. (1.2.3.4)"] : List String) =
          [tok ++ " " ++ "www.opendns.com." ++ " (" ++ addr ++ ")"] ∧
        replyM.answers = [arec "www.opendns.com." addr]) :=
  nonlocal_one_log_line envM odnsM noRes reqM replyM ["MGMT www.opendns.com. (1.2.3.4)"]
    [(Upstream.opendns, "www.opendns.com.")] (by decide)

/-- C9: when TCP framing fails (here: a one-byte buffer, which makes
`struct.unpack` raise inside `get_data`), the except block of `handle`
references the never-assigned local `data` and itself raises, so the request
produces neither response bytes nor the promised error-log line. -/
theorem framing_error_crashes_logger :
    get_data [0] = Except.error "struct.error: unpack requires a buffer of 2 bytes" ∧
    handle "TCP" "2026-10-12 00:00:00.000000" "127.0.0.1" 40000 (get_data [0])
      (fun _ => none) = HandleOutcome.crashed :=
  ⟨rfl, rfl⟩

/-- C10: every successful reply carries the request's transaction id, echoes
its question section, and sets qr=1, aa=1, ra=1. -/
theorem reply_echoes_id_question (env : Env) (odns unloc : String → Option String)
    (req : Request) (reply : Reply) (logs : List String) (calls : List (Upstream × String))
    (h : dns_response env odns unloc req = some (reply, logs, calls)) :
    reply.header = ⟨req.header_id, 1, 1, 1⟩ ∧ reply.q = req.q := by
  obtain ⟨h1, h2, -⟩ := dns_response_ok env odns unloc req reply logs calls h
  exact ⟨h1, h2⟩

theorem reply_echoes_id_question_witness :
    replyM.header = ⟨9, 1, 1, 1⟩ ∧ replyM.q = ⟨"www.opendns.com.", QType.A⟩ :=
  reply_echoes_id_question envM odnsM noRes reqM replyM ["MGMT www.opendns.com. (1.2.3.4)"]
    [(Upstream.opendns, "www.opendns.com.")] (by decide)

end ConditionalDns
